import Mathlib

/-!
# OBS hotkey trigger: scene resolution, startup synchronisation and mask toggling

A shallow embedding of `cmd/main.go`.  The remote OBS WebSocket client is a record of
state-passing request functions over an arbitrary server state `σ`, so that every
behaviour of the server (any request failing or succeeding, with any answer, depending
on everything that happened before) is covered.  Each request that the program sends is
appended to a trace kept next to the server state.

Conventions.
* A Go call returning `(resp, err)` is an `Option`: `none` is `err != nil`.
* Go `int` and `int64` are modelled by `Int`; the conversions `int64(item.SceneItemID)`
  and `int(itemID)` of the source are between the two and lose nothing on the value
  that came from an `int`.
* `log.Printf` / `fmt.Printf` calls have no effect on the modelled state and are left out.
* Pointers: `*MaskState` is `Option MaskState` where the source tests it against `nil`;
  the pointee after the call is returned.
-/

namespace OBSHotkey

/-! ## Data model -/

/-- The fields of `typedefs.SceneItem` (library `goobs`) that the program reads, with the
enabled flag the server keeps for the item. -/
structure SceneItem where
  SourceName : String
  SceneItemID : Int
  SceneItemEnabled : Bool
  deriving DecidableEq, Repr

/-- The fields of `typedefs.Scene` (library `goobs`) that the program reads. -/
structure Scene where
  SceneIndex : Int
  SceneName : String
  deriving DecidableEq, Repr

/-- `MaskState` of the source (lines 46-51). -/
structure MaskState where
  Name : String
  Source : String
  Scene : String
  Active : Bool
  deriving DecidableEq, Repr

/-- `MaskConfig` of the source (lines 29-37); the hotkey binding plays no part in
resolution, synchronisation or toggling and is kept as the two configured strings. -/
structure MaskConfig where
  Name : String
  Source : String
  Scene : String
  HotkeyKey : String
  HotkeyModifiers : List String
  deriving DecidableEq, Repr

/-! ## Scene-item locator -/

/-- `findSceneItemID` of the source (lines 333-340): the identifier of the first item
whose `SourceName` equals `sourceName`, and `0` when the loop ends without a match. -/
def findSceneItemID (sceneItems : List SceneItem) (sourceName : String) : Int :=
  match sceneItems with
  | [] => 0
  | item :: rest =>
    if item.SourceName = sourceName then item.SceneItemID
    else findSceneItemID rest sourceName

/-! ## The remote client -/

/-- A request sent to the OBS server, with its parameters. -/
inductive Request where
  | getSceneList
  | getCurrentProgramScene
  | getSceneItemList (sceneName : String)
  | getSceneItemEnabled (sceneName : String) (sceneItemId : Int)
  | setSceneItemEnabled (sceneName : String) (sceneItemId : Int) (sceneItemEnabled : Bool)
  deriving DecidableEq, Repr

/-- The five requests of `goobs.Client` that the program uses.  Each takes the server
state, answers (`none` when the call returns an error) and gives the next server state.
`GetCurrentProgramScene` answers with `CurrentProgramSceneName`. -/
structure Client (σ : Type) where
  GetSceneList : σ → Option (List Scene) × σ
  GetCurrentProgramScene : σ → Option String × σ
  GetSceneItemList : String → σ → Option (List SceneItem) × σ
  GetSceneItemEnabled : String → Int → σ → Option Bool × σ
  SetSceneItemEnabled : String → Int → Bool → σ → Option Unit × σ

/-- `OBSClient` of the source (lines 40-43): the client pointer, which may be `nil`.
The mutex is taken on entry of `toggleMask` and released on return; calls are modelled
one after the other. -/
structure OBSClient (σ : Type) where
  client : Option (Client σ)

/-- The server state together with the requests sent so far, oldest first. -/
structure World (σ : Type) where
  srv : σ
  trace : List Request

/-- `client.Scenes.GetSceneList()`. -/
def getSceneList {σ : Type} (c : Client σ) (w : World σ) : Option (List Scene) × World σ :=
  ((c.GetSceneList w.srv).1, ⟨(c.GetSceneList w.srv).2, w.trace ++ [Request.getSceneList]⟩)

/-- `client.Scenes.GetCurrentProgramScene()`. -/
def getCurrentProgramScene {σ : Type} (c : Client σ) (w : World σ) : Option String × World σ :=
  ((c.GetCurrentProgramScene w.srv).1,
    ⟨(c.GetCurrentProgramScene w.srv).2, w.trace ++ [Request.getCurrentProgramScene]⟩)

/-- `client.SceneItems.GetSceneItemList(&params)` with `params.SceneName = &sceneName`. -/
def getSceneItemList {σ : Type} (c : Client σ) (sceneName : String) (w : World σ) :
    Option (List SceneItem) × World σ :=
  ((c.GetSceneItemList sceneName w.srv).1,
    ⟨(c.GetSceneItemList sceneName w.srv).2, w.trace ++ [Request.getSceneItemList sceneName]⟩)

/-- `client.SceneItems.GetSceneItemEnabled(&enabledParams)`. -/
def getSceneItemEnabled {σ : Type} (c : Client σ) (sceneName : String) (itemID : Int)
    (w : World σ) : Option Bool × World σ :=
  ((c.GetSceneItemEnabled sceneName itemID w.srv).1,
    ⟨(c.GetSceneItemEnabled sceneName itemID w.srv).2,
      w.trace ++ [Request.getSceneItemEnabled sceneName itemID]⟩)

/-- `c.client.SceneItems.SetSceneItemEnabled(&enabledParams)`. -/
def setSceneItemEnabled {σ : Type} (c : Client σ) (sceneName : String) (itemID : Int)
    (visible : Bool) (w : World σ) : Option Unit × World σ :=
  ((c.SetSceneItemEnabled sceneName itemID visible w.srv).1,
    ⟨(c.SetSceneItemEnabled sceneName itemID visible w.srv).2,
      w.trace ++ [Request.setSceneItemEnabled sceneName itemID visible]⟩)

/-! ## Go standard library: `strings.TrimSpace` -/

/-- Go `unicode.IsSpace`: the code points with the Unicode White_Space property. -/
def isSpace (r : Char) : Bool :=
  (0x09 ≤ r.toNat && r.toNat ≤ 0x0D) || r.toNat == 0x20 || r.toNat == 0x85 ||
  r.toNat == 0xA0 || r.toNat == 0x1680 || (0x2000 ≤ r.toNat && r.toNat ≤ 0x200A) ||
  r.toNat == 0x2028 || r.toNat == 0x2029 || r.toNat == 0x202F || r.toNat == 0x205F ||
  r.toNat == 0x3000

/-- Go `strings.TrimSpace`: the string without its leading and trailing white space. -/
def TrimSpace (s : String) : String :=
  ⟨((s.data.dropWhile isSpace).reverse.dropWhile isSpace).reverse⟩

/-! ## Startup: resolution and synchronisation (lines 104-212) -/

/-- The scan loop over `resp.Scenes`, entered with `sceneName == ""`; the value is the
`sceneName` variable after the loop.  Lines 156-174 of `main` and lines 384-403 of
`toggleMask` are this loop (they differ in their log lines only): a scene with an empty
name is skipped, a failed item listing is skipped, and the first scene in which
`findSceneItemID` is not `0` is assigned to `sceneName` and ends the loop. -/
def scanScenes {σ : Type} (c : Client σ) (sourceName : String) :
    List Scene → World σ → String × World σ
  | [], w => ("", w)
  | scene :: rest, w =>
    if scene.SceneName = "" then scanScenes c sourceName rest w
    else
      match getSceneItemList c scene.SceneName w with
      | (none, w1) => scanScenes c sourceName rest w1
      | (some sceneItems, w1) =>
        if findSceneItemID sceneItems sourceName ≠ 0 then (scene.SceneName, w1)
        else scanScenes c sourceName rest w1

/-- "Try current scene first", lines 135-153 of `main`: the value is the `sceneName`
variable (empty before) after the attempt. -/
def tryCurrentScene {σ : Type} (c : Client σ) (sourceName : String) (w : World σ) :
    String × World σ :=
  match getCurrentProgramScene c w with
  | (none, w1) => ("", w1)
  | (some currentSceneName, w1) =>
    if currentSceneName ≠ "" then
      match getSceneItemList c currentSceneName w1 with
      | (none, w2) => ("", w2)
      | (some sceneItems, w2) =>
        if findSceneItemID sceneItems sourceName ≠ 0 then (currentSceneName, w2) else ("", w2)
    else ("", w1)

/-- Startup resolution, lines 118-184 of `main`, for a mask with source `sourceName` and
configured scene `sceneHint`: `some sceneName` when the loop body goes on to the
synchronisation with that scene name, `none` when it leaves by `continue`. -/
def startupResolve {σ : Type} (c : Client σ) (sourceName sceneHint : String) (w : World σ) :
    Option String × World σ :=
  if sceneHint = "" then
    match getSceneList c w with
    | (none, w1) => (none, w1)
    | (some scenes, w1) =>
      if scenes.length = 0 then (none, w1)
      else
        match tryCurrentScene c sourceName w1 with
        | (sceneName1, w2) =>
          match (if sceneName1 = "" then scanScenes c sourceName scenes w2
                 else (sceneName1, w2)) with
          | (sceneName2, w3) =>
            if sceneName2 = "" then (none, w3) else (some sceneName2, w3)
  else if sceneHint = "场景" ∨ TrimSpace sceneHint = "" then (none, w)
  else (some sceneHint, w)

/-- One iteration of the loop over `cfg.Masks`, lines 106-212 of `main`: `some state`
when the iteration reaches `maskStates[mask.Name] = state`, `none` when it leaves by
`continue`. -/
def processMask {σ : Type} (c : Client σ) (mask : MaskConfig) (w : World σ) :
    Option MaskState × World σ :=
  if mask.Name = "" ∨ mask.Source = "" then (none, w)
  else
    match startupResolve c mask.Source mask.Scene w with
    | (none, w1) => (none, w1)
    | (some sceneName, w1) =>
      match getSceneItemList c sceneName w1 with
      | (none, w2) => (none, w2)
      | (some sceneItems, w2) =>
        if findSceneItemID sceneItems mask.Source = 0 then (none, w2)
        else
          match getSceneItemEnabled c sceneName (findSceneItemID sceneItems mask.Source) w2 with
          | (none, w3) => (none, w3)
          | (some sceneItemEnabled, w3) =>
            (some { Name := mask.Name, Source := mask.Source,
                    Scene := if mask.Scene = "" then sceneName else mask.Scene,
                    Active := sceneItemEnabled }, w3)

/-- The map `maskStates` (`map[string]*MaskState`). -/
abbrev MaskStates := String → Option MaskState

/-- `maskStates[name] = state`. -/
def MaskStates.put (m : MaskStates) (name : String) (state : MaskState) : MaskStates :=
  fun k => if k = name then some state else m k

/-- The loop over `cfg.Masks`, lines 105-212 of `main`, from the map built so far. -/
def initMaskStates {σ : Type} (c : Client σ) :
    List MaskConfig → MaskStates → World σ → MaskStates × World σ
  | [], maskStates, w => (maskStates, w)
  | mask :: rest, maskStates, w =>
    match processMask c mask w with
    | (none, w1) => initMaskStates c rest maskStates w1
    | (some state, w1) => initMaskStates c rest (maskStates.put mask.Name state) w1

/-! ## Toggling (lines 357-447) -/

/-- Lines 374-418 of `toggleMask`, the part that settles `sceneName`: `some sceneName`
when the function goes on to line 420 with that value, `none` when it returns. -/
def toggleResolve {σ : Type} (c : Client σ) (sourceName sceneName : String) (w : World σ) :
    Option String × World σ :=
  if sceneName = "" then
    match getSceneList c w with
    | (none, w1) => (none, w1)
    | (some scenes, w1) =>
      if scenes.length = 0 then (none, w1)
      else
        match scanScenes c sourceName scenes w1 with
        | (sceneName1, w2) =>
          if sceneName1 = "" then
            match getCurrentProgramScene c w2 with
            | (none, w3) => (none, w3)
            | (some currentSceneName, w3) =>
              if currentSceneName = "" then (none, w3) else (some currentSceneName, w3)
          else (some sceneName1, w2)
  else (some sceneName, w)

/-- Lines 420-446 of `toggleMask`, from the settled `sceneName` and the flipped value
`visible`: the item listing, the locator and the set-enabled request. -/
def toggleSceneItem {σ : Type} (c : Client σ) (sourceName sceneName : String) (visible : Bool)
    (w : World σ) : World σ :=
  match getSceneItemList c sceneName w with
  | (none, w1) => w1
  | (some sceneItems, w1) =>
    if findSceneItemID sceneItems sourceName = 0 then w1
    else (setSceneItemEnabled c sceneName (findSceneItemID sceneItems sourceName) visible w1).2

/-- `toggleMask` of the source (lines 357-447).  The value is the `MaskState` behind the
`state` pointer after the call, with the world; `Except.error` is the run-time panic of
reading `state.Name` through a `nil` pointer at line 362. -/
def toggleMask {σ : Type} (c : OBSClient σ) (state : Option MaskState)
    (sourceName sceneName : String) (w : World σ) :
    Except String (Option MaskState × World σ) :=
  match c.client with
  | none =>
    match state with
    | none => Except.error "nil pointer dereference"
    | some st => Except.ok (some st, w)
  | some client =>
    match state with
    | none => Except.ok (none, w)
    | some st =>
      match toggleResolve client sourceName sceneName w with
      | (none, w1) => Except.ok (some { st with Active := !st.Active }, w1)
      | (some sceneName1, w1) =>
        Except.ok
          (some { st with Active := !st.Active,
                          Scene := if sceneName = "" then sceneName1 else st.Scene },
            toggleSceneItem client sourceName sceneName1 (!st.Active) w1)

/-- The registration guard of lines 216-224: the hotkey of `mask` is considered only when
the mask has a name, a state in the map, and that state has a scene. -/
def hotkeyEligible (maskStates : MaskStates) (mask : MaskConfig) : Bool :=
  if mask.Name = "" then false
  else
    match maskStates mask.Name with
    | none => false
    | some state => !(state.Scene = "")

/-- One key-down event of the listener started at lines 312-320 for `mask`: the call
`obsClient.toggleMask(state, source, scene)` with the arguments the goroutine was given,
`maskStates[mask.Name]`, `mask.Source` and `mask.Scene`.  The state behind the pointer is
written back to the map. -/
def hotkeyTriggered {σ : Type} (c : OBSClient σ) (mask : MaskConfig) (maskStates : MaskStates)
    (w : World σ) : Except String (MaskStates × World σ) :=
  match toggleMask c (maskStates mask.Name) mask.Source mask.Scene w with
  | Except.error e => Except.error e
  | Except.ok (none, w1) => Except.ok (maskStates, w1)
  | Except.ok (some st, w1) => Except.ok (maskStates.put mask.Name st, w1)

/-- The set-enabled requests of a trace, in order. -/
def setEnabledRequests (trace : List Request) : List Request :=
  trace.filter fun r =>
    match r with
    | Request.setSceneItemEnabled _ _ _ => true
    | _ => false

/-- The scene-list and active-scene queries of a trace, in order. -/
def sceneQueries (trace : List Request) : List Request :=
  trace.filter fun r =>
    match r with
    | Request.getSceneList => true
    | Request.getCurrentProgramScene => true
    | _ => false

/-- The server state after the server has handled the request `r` in state `s`. -/
def Client.handle {σ : Type} (c : Client σ) (r : Request) (s : σ) : σ :=
  match r with
  | Request.getSceneList => (c.GetSceneList s).2
  | Request.getCurrentProgramScene => (c.GetCurrentProgramScene s).2
  | Request.getSceneItemList n => (c.GetSceneItemList n s).2
  | Request.getSceneItemEnabled n i => (c.GetSceneItemEnabled n i s).2
  | Request.setSceneItemEnabled n i v => (c.SetSceneItemEnabled n i v s).2

/-- The server state after the server has handled the requests `rs`, in order, from `s`. -/
def Client.handleAll {σ : Type} (c : Client σ) (rs : List Request) (s : σ) : σ :=
  rs.foldl (fun s1 r => c.handle r s1) s

/-! ## An unchanging remote scene graph -/

/-- A remote scene graph: the scenes in server-reported order, the name of the active
scene (empty when there is none) and the items of each scene. -/
structure SceneGraph where
  scenes : List Scene
  current : String
  items : String → List SceneItem

/-- The client `c` serves the scene graph `g`: whatever the server state, the scene-list,
active-scene and scene-item-list queries succeed and answer with the data of `g`. -/
def Serves {σ : Type} (c : Client σ) (g : SceneGraph) : Prop :=
  (∀ s, (c.GetSceneList s).1 = some g.scenes) ∧
  (∀ s, (c.GetCurrentProgramScene s).1 = some g.current) ∧
  (∀ n s, (c.GetSceneItemList n s).1 = some (g.items n))

/-- A server without state that answers every query from the scene graph `g`: the
enabled flag of an item is the one of the listing, and an item that is not in the scene
is an error.  A set-enabled request for an item of the scene is acknowledged. -/
def staticClient (g : SceneGraph) : Client Unit where
  GetSceneList := fun s => (some g.scenes, s)
  GetCurrentProgramScene := fun s => (some g.current, s)
  GetSceneItemList := fun n s => (some (g.items n), s)
  GetSceneItemEnabled := fun n i s =>
    (((g.items n).find? (fun item => item.SceneItemID = i)).map (fun item => item.SceneItemEnabled), s)
  SetSceneItemEnabled := fun n i _ s =>
    (((g.items n).find? (fun item => item.SceneItemID = i)).map (fun _ => ()), s)

/-- A server that answers every query from the scene graph `g` as `staticClient` does and
whose state is the list of the requests it has received, oldest first. -/
def loggingClient (g : SceneGraph) : Client (List Request) where
  GetSceneList := fun s => (some g.scenes, s ++ [Request.getSceneList])
  GetCurrentProgramScene := fun s => (some g.current, s ++ [Request.getCurrentProgramScene])
  GetSceneItemList := fun n s => (some (g.items n), s ++ [Request.getSceneItemList n])
  GetSceneItemEnabled := fun n i s =>
    (((g.items n).find? (fun item => item.SceneItemID = i)).map (fun item => item.SceneItemEnabled),
      s ++ [Request.getSceneItemEnabled n i])
  SetSceneItemEnabled := fun n i v s =>
    (((g.items n).find? (fun item => item.SceneItemID = i)).map (fun _ => ()),
      s ++ [Request.setSceneItemEnabled n i v])

/-- The world before any request. -/
def World.start : World Unit := ⟨(), []⟩

/-- The first scene of the list, in order, that has a non-empty name and in whose items
the locator finds the source. -/
def firstSceneWith (g : SceneGraph) (sourceName : String) : Option Scene :=
  g.scenes.find? fun scene =>
    !(scene.SceneName = "") && !(findSceneItemID (g.items scene.SceneName) sourceName = 0)

/-- The first scene of the list, in order, that has a non-empty name and one of whose
items has the source name. -/
def firstSceneHaving (g : SceneGraph) (sourceName : String) : Option Scene :=
  g.scenes.find? fun scene =>
    !(scene.SceneName = "") &&
      (g.items scene.SceneName).any fun item => item.SourceName = sourceName

/-- A mask configured without a scene: name "Blur", source "BlurFilter", hotkey Ctrl+M. -/
def maskBlur : MaskConfig := ⟨"Blur", "BlurFilter", "", "M", ["ctrl"]⟩

/-- Scenario A: the scenes "Intro" and "Main", both with the source "BlurFilter"; "Main"
is the active scene. -/
def graphA : SceneGraph where
  scenes := [⟨0, "Intro"⟩, ⟨1, "Main"⟩]
  current := "Main"
  items := fun n =>
    if n = "Intro" then [⟨"LogoText", 1, true⟩, ⟨"BlurFilter", 2, false⟩]
    else if n = "Main" then [⟨"Camera", 1, true⟩, ⟨"BlurFilter", 7, true⟩]
    else []

/-- The scenes "Intro" and "Main", both with an item for the source "BlurFilter"; "Main"
is the active scene and its item has the identifier `0`. -/
def graphZ : SceneGraph where
  scenes := [⟨0, "Intro"⟩, ⟨1, "Main"⟩]
  current := "Main"
  items := fun n =>
    if n = "Intro" then [⟨"BlurFilter", 2, false⟩]
    else if n = "Main" then [⟨"BlurFilter", 0, true⟩]
    else []

/-- The mask of Scenario B: name "Logo", source "LogoPNG", configured scene "Intro". -/
def maskLogo : MaskConfig := ⟨"Logo", "LogoPNG", "Intro", "L", ["ctrl"]⟩

/-- Scenario B: the scene "Intro" does not have the source "LogoPNG", "Main" has it. -/
def graphB : SceneGraph where
  scenes := [⟨0, "Intro"⟩, ⟨1, "Main"⟩]
  current := "Main"
  items := fun n =>
    if n = "Intro" then [⟨"LogoText", 1, true⟩]
    else if n = "Main" then [⟨"Camera", 1, true⟩, ⟨"LogoPNG", 3, true⟩]
    else []

/-! ## The locator -/

theorem findSceneItemID_find (sceneItems : List SceneItem) (sourceName : String) :
    findSceneItemID sceneItems sourceName =
      ((sceneItems.find? fun item => decide (item.SourceName = sourceName)).map
        fun item => item.SceneItemID).getD 0 := by
  induction sceneItems with
  | nil => rfl
  | cons item rest ih =>
    by_cases h : item.SourceName = sourceName
    · simp [findSceneItemID, List.find?, h]
    · simp [findSceneItemID, List.find?, h, ih]

theorem findSceneItemID_no_match (sceneItems : List SceneItem) (sourceName : String)
    (h : ∀ item ∈ sceneItems, item.SourceName ≠ sourceName) :
    findSceneItemID sceneItems sourceName = 0 := by
  induction sceneItems with
  | nil => rfl
  | cons item rest ih =>
    have h1 : item.SourceName ≠ sourceName := h item (List.mem_cons_self _ _)
    have h2 : ∀ x ∈ rest, x.SourceName ≠ sourceName :=
      fun x hx => h x (List.mem_cons_of_mem _ hx)
    simp [findSceneItemID, h1, ih h2]

theorem findSceneItemID_mem (sceneItems : List SceneItem) (sourceName : String)
    (h : findSceneItemID sceneItems sourceName ≠ 0) :
    ∃ item ∈ sceneItems, item.SourceName = sourceName ∧
      item.SceneItemID = findSceneItemID sceneItems sourceName := by
  induction sceneItems with
  | nil => exact absurd rfl h
  | cons item rest ih =>
    by_cases h1 : item.SourceName = sourceName
    · exact ⟨item, List.mem_cons_self _ _, h1, by simp [findSceneItemID, h1]⟩
    · have e : findSceneItemID (item :: rest) sourceName = findSceneItemID rest sourceName := by
        simp [findSceneItemID, h1]
      rw [e] at h ⊢
      obtain ⟨x, hx, hs, hi⟩ := ih h
      exact ⟨x, List.mem_cons_of_mem _ hx, hs, hi⟩

theorem findSceneItemID_unique (sceneItems : List SceneItem) (sourceName : String)
    (item : SceneItem) (hmem : item ∈ sceneItems) (hsrc : item.SourceName = sourceName)
    (huniq : ∀ other ∈ sceneItems, other.SourceName = sourceName → other = item) :
    findSceneItemID sceneItems sourceName = item.SceneItemID := by
  induction sceneItems with
  | nil => cases hmem
  | cons x rest ih =>
    by_cases h1 : x.SourceName = sourceName
    · have hx : x = item := huniq x (List.mem_cons_self _ _) h1
      rw [← hx]
      simp [findSceneItemID, h1]
    · have e : findSceneItemID (x :: rest) sourceName = findSceneItemID rest sourceName := by
        simp [findSceneItemID, h1]
      rw [e]
      rcases List.mem_cons.mp hmem with hm | hm
      · exact absurd (hm ▸ hsrc) h1
      · exact ih hm fun other ho hs => huniq other (List.mem_cons_of_mem _ ho) hs

theorem findSceneItemID_ne_zero (sceneItems : List SceneItem) (sourceName : String)
    (hid : ∀ item ∈ sceneItems, item.SceneItemID ≠ 0)
    (hex : ∃ item ∈ sceneItems, item.SourceName = sourceName) :
    findSceneItemID sceneItems sourceName ≠ 0 := by
  induction sceneItems with
  | nil => obtain ⟨x, hx, _⟩ := hex; cases hx
  | cons x rest ih =>
    by_cases h1 : x.SourceName = sourceName
    · simpa [findSceneItemID, h1] using hid x (List.mem_cons_self _ _)
    · have e : findSceneItemID (x :: rest) sourceName = findSceneItemID rest sourceName := by
        simp [findSceneItemID, h1]
      rw [e]
      obtain ⟨y, hy, hs⟩ := hex
      rcases List.mem_cons.mp hy with hm | hm
      · exact absurd (hm ▸ hs) h1
      · exact ih (fun z hz => hid z (List.mem_cons_of_mem _ hz)) ⟨y, hm, hs⟩

/-- C3, as the code has it: `findSceneItemID` returns the identifier of the first item in
list order whose `SourceName` equals the source name, and `0` when no item has that source
name; a unique match gives that item's identifier; and when every identifier in the list
is nonzero, the result is `0` exactly when no item has that source name. -/
theorem findSceneItemID_first_match (sceneItems : List SceneItem) (sourceName : String) :
    (findSceneItemID sceneItems sourceName =
      ((sceneItems.find? fun item => decide (item.SourceName = sourceName)).map
        fun item => item.SceneItemID).getD 0) ∧
    ((∀ item ∈ sceneItems, item.SourceName ≠ sourceName) →
      findSceneItemID sceneItems sourceName = 0) ∧
    (∀ item ∈ sceneItems, item.SourceName = sourceName →
      (∀ other ∈ sceneItems, other.SourceName = sourceName → other = item) →
      findSceneItemID sceneItems sourceName = item.SceneItemID) ∧
    ((∀ item ∈ sceneItems, item.SceneItemID ≠ 0) →
      (findSceneItemID sceneItems sourceName = 0 ↔
        ∀ item ∈ sceneItems, item.SourceName ≠ sourceName)) := by
  refine ⟨findSceneItemID_find _ _, findSceneItemID_no_match _ _,
    fun item hm hs hu => findSceneItemID_unique _ _ item hm hs hu, fun hid => ⟨?_, ?_⟩⟩
  · intro h0 item hm hs
    exact findSceneItemID_ne_zero _ _ hid ⟨item, hm, hs⟩ h0
  · exact findSceneItemID_no_match _ _

/-- The nonzero-identifier reading of C3 on the items of "Main" in Scenario A: the result
for "BlurFilter" is `7`, and `0` would mean that no item has that source name. -/
theorem findSceneItemID_first_match_witness :
    (∀ item ∈ graphA.items "Main", item.SceneItemID ≠ 0) ∧
    (findSceneItemID (graphA.items "Main") "BlurFilter" = 0 ↔
      ∀ item ∈ graphA.items "Main", item.SourceName ≠ "BlurFilter") ∧
    findSceneItemID (graphA.items "Main") "BlurFilter" = 7 :=
  ⟨by decide,
    (findSceneItemID_first_match (graphA.items "Main") "BlurFilter").2.2.2 (by decide),
    by decide⟩

/-- C3 as stated fails: the only item of the list has the source name, with identifier
`0`, and the result is the not-found value although an item matches. -/
theorem findSceneItemID_zero_id_counterexample :
    ¬ (findSceneItemID [⟨"BlurFilter", 0, true⟩] "BlurFilter" = 0 ↔
        ∀ item ∈ [(⟨"BlurFilter", 0, true⟩ : SceneItem)], item.SourceName ≠ "BlurFilter") := by
  decide

/-! ## The local flag -/

/-- C1: with a client and a state that are not `nil`, `toggleMask` returns, whatever the
server answers, and the state's `Active` flag is then the negation of its value before
the call; name and source are unchanged. -/
theorem toggleMask_flips_active {σ : Type} (client : Client σ) (st : MaskState)
    (sourceName sceneName : String) (w : World σ) :
    ∃ st1 w1, toggleMask ⟨some client⟩ (some st) sourceName sceneName w
        = Except.ok (some st1, w1) ∧
      st1.Active = (!st.Active) ∧ st1.Name = st.Name ∧ st1.Source = st.Source := by
  unfold toggleMask
  simp only
  rcases toggleResolve client sourceName sceneName w with ⟨_ | s, w1⟩
  · exact ⟨_, _, rfl, rfl, rfl, rfl⟩
  · exact ⟨_, _, rfl, rfl, rfl, rfl⟩

/-! ## Startup resolution with a scene hint -/

theorem setEnabledRequests_append (a b : List Request) :
    setEnabledRequests (a ++ b) = setEnabledRequests a ++ setEnabledRequests b := by
  simp [setEnabledRequests]

theorem sceneQueries_append (a b : List Request) :
    sceneQueries (a ++ b) = sceneQueries a ++ sceneQueries b := by
  simp [sceneQueries]

/-- For a scene hint that is non-empty, is not the placeholder and is not blank after
trimming, lines 118-184 yield the hint and leave the world as it was. -/
theorem startupResolve_hint_kept {σ : Type} (c : Client σ) (sourceName sceneHint : String)
    (w : World σ) (hne : sceneHint ≠ "") (hph : sceneHint ≠ "场景")
    (hblank : TrimSpace sceneHint ≠ "") :
    startupResolve c sourceName sceneHint w = (some sceneHint, w) := by
  unfold startupResolve
  simp [hne, hph, hblank]

/-- C5, as the code has it: for a mask with a name and a source whose configured scene is
non-empty, is not the placeholder and is not blank after trimming, startup resolution takes
the configured scene and sends no request while resolving; the first request of the
iteration is the item listing of the configured scene, and the iteration sends no
scene-list or active-scene query at all.  The synchronisation then checks the hint: when
the listing fails or the locator does not find the source in it, the mask gets no state;
when the locator finds it, the state has the configured scene and the flag the server
answers for the located item, and there is no state when that query fails. -/
theorem processMask_valid_hint {σ : Type} (c : Client σ) (mask : MaskConfig) (w : World σ)
    (hname : mask.Name ≠ "") (hsrc : mask.Source ≠ "") (hne : mask.Scene ≠ "")
    (hph : mask.Scene ≠ "场景") (hblank : TrimSpace mask.Scene ≠ "") :
    startupResolve c mask.Source mask.Scene w = (some mask.Scene, w) ∧
    (processMask c mask w).1 =
      (match (c.GetSceneItemList mask.Scene w.srv).1 with
        | none => none
        | some sceneItems =>
          if findSceneItemID sceneItems mask.Source = 0 then none
          else
            (c.GetSceneItemEnabled mask.Scene (findSceneItemID sceneItems mask.Source)
                (c.GetSceneItemList mask.Scene w.srv).2).1.map
              fun sceneItemEnabled =>
                ⟨mask.Name, mask.Source, mask.Scene, sceneItemEnabled⟩) ∧
    (processMask c mask w).2.trace =
      w.trace ++ Request.getSceneItemList mask.Scene ::
        (match (c.GetSceneItemList mask.Scene w.srv).1 with
          | none => []
          | some sceneItems =>
            if findSceneItemID sceneItems mask.Source = 0 then []
            else [Request.getSceneItemEnabled mask.Scene
                    (findSceneItemID sceneItems mask.Source)]) ∧
    sceneQueries (processMask c mask w).2.trace = sceneQueries w.trace := by
  have hres := startupResolve_hint_kept c mask.Source mask.Scene w hne hph hblank
  have hm : ¬ (mask.Name = "" ∨ mask.Source = "") := fun h => h.elim hname hsrc
  have key : (processMask c mask w).1 =
      (match (c.GetSceneItemList mask.Scene w.srv).1 with
        | none => none
        | some sceneItems =>
          if findSceneItemID sceneItems mask.Source = 0 then none
          else
            (c.GetSceneItemEnabled mask.Scene (findSceneItemID sceneItems mask.Source)
                (c.GetSceneItemList mask.Scene w.srv).2).1.map
              fun sceneItemEnabled =>
                ⟨mask.Name, mask.Source, mask.Scene, sceneItemEnabled⟩) ∧
    (processMask c mask w).2.trace =
      w.trace ++ Request.getSceneItemList mask.Scene ::
        (match (c.GetSceneItemList mask.Scene w.srv).1 with
          | none => []
          | some sceneItems =>
            if findSceneItemID sceneItems mask.Source = 0 then []
            else [Request.getSceneItemEnabled mask.Scene
                    (findSceneItemID sceneItems mask.Source)]) := by
    unfold processMask
    simp only [hm, if_false, hres, getSceneItemList]
    rcases hl : (c.GetSceneItemList mask.Scene w.srv).1 with _ | sceneItems
    · simp
    · simp only
      by_cases hf : findSceneItemID sceneItems mask.Source = 0
      · simp [hf]
      · simp only [hf, if_false, getSceneItemEnabled]
        rcases he : (c.GetSceneItemEnabled mask.Scene (findSceneItemID sceneItems mask.Source)
            (c.GetSceneItemList mask.Scene w.srv).2).1 with _ | en
        · simp
        · simp [hne]
  refine ⟨hres, key.1, key.2, ?_⟩
  rw [key.2, sceneQueries_append]
  rcases (c.GetSceneItemList mask.Scene w.srv).1 with _ | sceneItems
  · simp [sceneQueries]
  · by_cases hf : findSceneItemID sceneItems mask.Source = 0
    · simp [hf, sceneQueries]
    · simp [hf, sceneQueries]

/-- The mask "Logo" with source "LogoPNG" configured with the scene "Main", which has the
source as item `3`: the state is stored with the scene "Main" and the flag of item `3`, after
the listing of "Main" and the enabled query, without any scene-list or active-scene query. -/
theorem processMask_valid_hint_witness :
    startupResolve (staticClient graphB) "LogoPNG" "Main" World.start
      = (some "Main", World.start) ∧
    (processMask (staticClient graphB) ⟨"Logo", "LogoPNG", "Main", "L", ["ctrl"]⟩
      World.start).1 = some ⟨"Logo", "LogoPNG", "Main", true⟩ ∧
    (processMask (staticClient graphB) ⟨"Logo", "LogoPNG", "Main", "L", ["ctrl"]⟩
      World.start).2.trace
      = [Request.getSceneItemList "Main", Request.getSceneItemEnabled "Main" 3] :=
  ⟨(processMask_valid_hint (staticClient graphB) ⟨"Logo", "LogoPNG", "Main", "L", ["ctrl"]⟩
      World.start (by decide) (by decide) (by decide) (by decide) (by decide)).1,
    ((processMask_valid_hint (staticClient graphB) ⟨"Logo", "LogoPNG", "Main", "L", ["ctrl"]⟩
      World.start (by decide) (by decide) (by decide) (by decide) (by decide)).2.1).trans
      (by decide),
    ((processMask_valid_hint (staticClient graphB) ⟨"Logo", "LogoPNG", "Main", "L", ["ctrl"]⟩
      World.start (by decide) (by decide) (by decide) (by decide) (by decide)).2.2.1).trans
      (by decide)⟩

/-- C5 as stated fails at Scenario B: the mask "Logo" has the source "LogoPNG" and the
configured scene "Intro", a non-empty, non-placeholder, non-blank hint, and "Intro" does not
have the source.  The iteration lists "Intro", does not find the source and ends without a
state: the map has no entry for "Logo" and the registration guard rejects the mask. -/
theorem processMask_hint_verified_counterexample :
    (maskLogo.Scene ≠ "" ∧ maskLogo.Scene ≠ "场景" ∧ TrimSpace maskLogo.Scene ≠ "") ∧
    (∀ item ∈ graphB.items maskLogo.Scene, item.SourceName ≠ maskLogo.Source) ∧
    (processMask (staticClient graphB) maskLogo World.start).1 = none ∧
    (processMask (staticClient graphB) maskLogo World.start).2.trace
      = [Request.getSceneItemList "Intro"] ∧
    (initMaskStates (staticClient graphB) [maskLogo] (fun _ => none) World.start).1 "Logo"
      = none ∧
    hotkeyEligible
      (initMaskStates (staticClient graphB) [maskLogo] (fun _ => none) World.start).1
      maskLogo = false := by
  decide

/-- C9, as the code has it: for a scene hint that is the placeholder, or is non-empty and
blank after trimming, startup resolution finds nothing and sends no request, and the
iteration for a mask with that hint ends without a state for the mask. -/
theorem startupResolve_rejected_hint {σ : Type} (c : Client σ) (sourceName sceneHint : String)
    (w : World σ) (hne : sceneHint ≠ "")
    (hbad : sceneHint = "场景" ∨ TrimSpace sceneHint = "") :
    startupResolve c sourceName sceneHint w = (none, w) ∧
    ∀ mask : MaskConfig, mask.Source = sourceName → mask.Scene = sceneHint →
      processMask c mask w = (none, w) := by
  have h : startupResolve c sourceName sceneHint w = (none, w) := by
    unfold startupResolve
    simp [hne, hbad]
  refine ⟨h, fun mask hs hh => ?_⟩
  unfold processMask
  by_cases hm : mask.Name = "" ∨ mask.Source = ""
  · simp [hm]
  · simp [hm, hs, hh, h]

/-- A blank hint, with the source in the active scene "Main". -/
theorem startupResolve_rejected_hint_witness :
    startupResolve (staticClient graphA) "BlurFilter" " " World.start = (none, World.start) ∧
    ∀ mask : MaskConfig, mask.Source = "BlurFilter" → mask.Scene = " " →
      processMask (staticClient graphA) mask World.start = (none, World.start) :=
  startupResolve_rejected_hint (staticClient graphA) "BlurFilter" " " World.start
    (by decide) (Or.inr (by decide))

/-- C9 as stated fails: in Scenario A the source is in the active scene "Main" and an
empty hint resolves to "Main", but the placeholder hint and a blank hint resolve to
nothing and send no request. -/
theorem startupResolve_placeholder_counterexample :
    (startupResolve (staticClient graphA) "BlurFilter" "" World.start).1 = some "Main" ∧
    (startupResolve (staticClient graphA) "BlurFilter" "场景" World.start).1 = none ∧
    (startupResolve (staticClient graphA) "BlurFilter" "场景" World.start).2.trace = [] ∧
    (startupResolve (staticClient graphA) "BlurFilter" " " World.start).1 = none ∧
    (startupResolve (staticClient graphA) "BlurFilter" " " World.start).2.trace = [] := by
  decide

/-! ## Resolution against an unchanging scene graph -/

theorem getSceneList_serves {σ : Type} (c : Client σ) (g : SceneGraph) (h : Serves c g)
    (w : World σ) :
    getSceneList c w
      = (some g.scenes, ⟨(c.GetSceneList w.srv).2, w.trace ++ [Request.getSceneList]⟩) := by
  simp [getSceneList, h.1]

theorem getCurrentProgramScene_serves {σ : Type} (c : Client σ) (g : SceneGraph)
    (h : Serves c g) (w : World σ) :
    getCurrentProgramScene c w
      = (some g.current,
          ⟨(c.GetCurrentProgramScene w.srv).2, w.trace ++ [Request.getCurrentProgramScene]⟩) := by
  simp [getCurrentProgramScene, h.2.1]

theorem getSceneItemList_serves {σ : Type} (c : Client σ) (g : SceneGraph) (h : Serves c g)
    (n : String) (w : World σ) :
    getSceneItemList c n w
      = (some (g.items n),
          ⟨(c.GetSceneItemList n w.srv).2, w.trace ++ [Request.getSceneItemList n]⟩) := by
  simp [getSceneItemList, h.2.2]

theorem scanScenes_serves {σ : Type} (c : Client σ) (g : SceneGraph) (h : Serves c g)
    (sourceName : String) (scenes : List Scene) (w : World σ) :
    (scanScenes c sourceName scenes w).1 =
      ((scenes.find? fun scene =>
          !(scene.SceneName = "") && !(findSceneItemID (g.items scene.SceneName) sourceName = 0)).map
        fun scene => scene.SceneName).getD "" := by
  induction scenes generalizing w with
  | nil => rfl
  | cons scene rest ih =>
    by_cases hn : scene.SceneName = ""
    · simp [scanScenes, hn, ih, List.find?]
    · by_cases hf : findSceneItemID (g.items scene.SceneName) sourceName = 0
      · simp [scanScenes, hn, hf, ih, List.find?, getSceneItemList_serves c g h]
      · simp [scanScenes, hn, hf, List.find?, getSceneItemList_serves c g h]

theorem find_scene_name_ne_empty (p : Scene → Bool) (scenes : List Scene) (scene : Scene)
    (hp : ∀ s, p s = true → s.SceneName ≠ "") (h : scenes.find? p = some scene) :
    scene.SceneName ≠ "" :=
  hp scene (List.find?_some h)

theorem firstSceneWith_name_ne_empty (g : SceneGraph) (sourceName : String) (scene : Scene)
    (h : firstSceneWith g sourceName = some scene) : scene.SceneName ≠ "" := by
  refine find_scene_name_ne_empty _ g.scenes scene ?_ h
  intro s hs
  simp at hs
  exact hs.1

theorem tryCurrentScene_serves {σ : Type} (c : Client σ) (g : SceneGraph) (h : Serves c g)
    (sourceName : String) (w : World σ) :
    (tryCurrentScene c sourceName w).1 =
      if g.current ≠ "" ∧ findSceneItemID (g.items g.current) sourceName ≠ 0 then g.current
      else "" := by
  unfold tryCurrentScene
  rw [getCurrentProgramScene_serves c g h]
  by_cases hc : g.current = ""
  · simp [hc]
  · by_cases hf : findSceneItemID (g.items g.current) sourceName = 0
    · simp [hc, hf, getSceneItemList_serves c g h]
    · simp [hc, hf, getSceneItemList_serves c g h]

theorem startupResolve_serves {σ : Type} (c : Client σ) (g : SceneGraph) (h : Serves c g)
    (hscenes : g.scenes ≠ []) (sourceName : String) (w : World σ) :
    (startupResolve c sourceName "" w).1 =
      if g.current ≠ "" ∧ findSceneItemID (g.items g.current) sourceName ≠ 0 then some g.current
      else (firstSceneWith g sourceName).map fun scene => scene.SceneName := by
  unfold startupResolve
  rw [getSceneList_serves c g h]
  have hlen : g.scenes.length ≠ 0 := by
    intro h0
    exact hscenes (List.length_eq_zero.mp h0)
  simp only [if_true, hlen, if_false]
  have htry := tryCurrentScene_serves c g h sourceName
    ⟨(c.GetSceneList w.srv).2, w.trace ++ [Request.getSceneList]⟩
  rcases hcur : tryCurrentScene c sourceName
      ⟨(c.GetSceneList w.srv).2, w.trace ++ [Request.getSceneList]⟩ with ⟨s1, w2⟩
  rw [hcur] at htry
  simp only at htry
  by_cases hc : g.current ≠ "" ∧ findSceneItemID (g.items g.current) sourceName ≠ 0
  · rw [if_pos hc] at htry
    have hs1 : s1 ≠ "" := htry ▸ hc.1
    simp [hs1, hc, htry]
  · rw [if_neg hc] at htry
    subst htry
    have hscan := scanScenes_serves c g h sourceName g.scenes w2
    rcases hsc : scanScenes c sourceName g.scenes w2 with ⟨s2, w3⟩
    rw [hsc] at hscan
    simp only at hscan
    simp only [if_true, if_neg hc]
    cases hfirst : firstSceneWith g sourceName with
    | none =>
      have : s2 = "" := by
        rw [hscan]
        unfold firstSceneWith at hfirst
        rw [hfirst]
        rfl
      simp [this]
    | some scene =>
      have hne := firstSceneWith_name_ne_empty g sourceName scene hfirst
      have : s2 = scene.SceneName := by
        rw [hscan]
        unfold firstSceneWith at hfirst
        rw [hfirst]
        rfl
      simp [this, hne]

theorem toggleResolve_serves {σ : Type} (c : Client σ) (g : SceneGraph) (h : Serves c g)
    (hscenes : g.scenes ≠ []) (sourceName : String) (w : World σ) :
    (toggleResolve c sourceName "" w).1 =
      match firstSceneWith g sourceName with
      | some scene => some scene.SceneName
      | none => if g.current = "" then none else some g.current := by
  unfold toggleResolve
  rw [getSceneList_serves c g h]
  have hlen : g.scenes.length ≠ 0 := by
    intro h0
    exact hscenes (List.length_eq_zero.mp h0)
  simp only [if_true, hlen, if_false]
  have hscan := scanScenes_serves c g h sourceName g.scenes
    ⟨(c.GetSceneList w.srv).2, w.trace ++ [Request.getSceneList]⟩
  rcases hsc : scanScenes c sourceName g.scenes
      ⟨(c.GetSceneList w.srv).2, w.trace ++ [Request.getSceneList]⟩ with ⟨s2, w3⟩
  rw [hsc] at hscan
  simp only at hscan
  cases hfirst : firstSceneWith g sourceName with
  | none =>
    have : s2 = "" := by
      rw [hscan]
      unfold firstSceneWith at hfirst
      rw [hfirst]
      rfl
    subst this
    rw [getCurrentProgramScene_serves c g h]
    by_cases hc : g.current = ""
    · simp [hc]
    · simp [hc]
  | some scene =>
    have hne := firstSceneWith_name_ne_empty g sourceName scene hfirst
    have : s2 = scene.SceneName := by
      rw [hscan]
      unfold firstSceneWith at hfirst
      rw [hfirst]
      rfl
    simp [this, hne]

theorem serves_staticClient (g : SceneGraph) : Serves (staticClient g) g :=
  ⟨fun _ => rfl, fun _ => rfl, fun _ _ => rfl⟩

/-! ## Requests sent by resolution and by the toggle -/

theorem scanScenes_setEnabled {σ : Type} (c : Client σ) (sourceName : String)
    (scenes : List Scene) (w : World σ) :
    setEnabledRequests (scanScenes c sourceName scenes w).2.trace = setEnabledRequests w.trace := by
  induction scenes generalizing w with
  | nil => rfl
  | cons scene rest ih =>
    unfold scanScenes
    by_cases hn : scene.SceneName = ""
    · simp [hn, ih]
    · simp only [hn, if_false]
      have hw : setEnabledRequests (getSceneItemList c scene.SceneName w).2.trace
          = setEnabledRequests w.trace := by
        simp [getSceneItemList, setEnabledRequests]
      rcases hl : getSceneItemList c scene.SceneName w with ⟨_ | sceneItems, w1⟩
      · rw [hl] at hw
        simp only
        rw [ih, hw]
      · rw [hl] at hw
        simp only
        split
        · exact hw
        · rw [ih, hw]

theorem toggleResolve_setEnabled {σ : Type} (c : Client σ) (sourceName sceneName : String)
    (w : World σ) :
    setEnabledRequests (toggleResolve c sourceName sceneName w).2.trace
      = setEnabledRequests w.trace := by
  unfold toggleResolve
  by_cases hs : sceneName = ""
  · simp only [hs, if_true]
    have hw : setEnabledRequests (getSceneList c w).2.trace = setEnabledRequests w.trace := by
      simp [getSceneList, setEnabledRequests]
    rcases hl : getSceneList c w with ⟨_ | scenes, w1⟩
    · rw [hl] at hw
      exact hw
    · rw [hl] at hw
      simp only
      split
      · exact hw
      · have hsc := scanScenes_setEnabled c sourceName scenes w1
        rcases hscan : scanScenes c sourceName scenes w1 with ⟨s1, w2⟩
        rw [hscan] at hsc
        simp only at hsc ⊢
        split
        · have hc : setEnabledRequests (getCurrentProgramScene c w2).2.trace
              = setEnabledRequests w2.trace := by
            simp [getCurrentProgramScene, setEnabledRequests]
          rcases hcur : getCurrentProgramScene c w2 with ⟨_ | cur, w3⟩
          · rw [hcur] at hc
            simp only
            rw [hc, hsc, hw]
          · rw [hcur] at hc
            simp only
            split <;> (simp only; rw [hc, hsc, hw])
        · simp only
          rw [hsc, hw]
  · simp [hs]

/-- The requests that lines 420-446 add to the trace. -/
theorem toggleSceneItem_trace {σ : Type} (c : Client σ) (sourceName sceneName : String)
    (visible : Bool) (w : World σ) :
    (toggleSceneItem c sourceName sceneName visible w).trace =
      w.trace ++ Request.getSceneItemList sceneName ::
        (match (c.GetSceneItemList sceneName w.srv).1 with
          | some sceneItems =>
            if findSceneItemID sceneItems sourceName = 0 then []
            else [Request.setSceneItemEnabled sceneName
                    (findSceneItemID sceneItems sourceName) visible]
          | none => []) := by
  unfold toggleSceneItem getSceneItemList
  rcases hl : (c.GetSceneItemList sceneName w.srv).1 with _ | sceneItems
  · simp
  · simp only
    by_cases hf : findSceneItemID sceneItems sourceName = 0
    · simp [hf]
    · simp [hf, setSceneItemEnabled]

theorem handleAll_append {σ : Type} (c : Client σ) (a b : List Request) (s : σ) :
    c.handleAll (a ++ b) s = c.handleAll b (c.handleAll a s) := by
  simp [Client.handleAll, List.foldl_append]

/-- The scan sends only item listings, and the server state after it is the state after
handling exactly those requests. -/
theorem scanScenes_sent {σ : Type} (c : Client σ) (sourceName : String)
    (scenes : List Scene) (w : World σ) :
    ∃ rs, (scanScenes c sourceName scenes w).2.trace = w.trace ++ rs ∧
      (scanScenes c sourceName scenes w).2.srv = c.handleAll rs w.srv ∧
      setEnabledRequests rs = [] := by
  induction scenes generalizing w with
  | nil => exact ⟨[], by simp [scanScenes], rfl, rfl⟩
  | cons scene rest ih =>
    unfold scanScenes
    by_cases hn : scene.SceneName = ""
    · simp only [hn, if_true]
      exact ih w
    · simp only [hn, if_false]
      have hw : (getSceneItemList c scene.SceneName w).2.trace
          = w.trace ++ [Request.getSceneItemList scene.SceneName] := rfl
      have hs : (getSceneItemList c scene.SceneName w).2.srv
          = c.handle (Request.getSceneItemList scene.SceneName) w.srv := rfl
      rcases hl : getSceneItemList c scene.SceneName w with ⟨_ | sceneItems, w1⟩
      · rw [hl] at hw hs
        simp only at hw hs ⊢
        obtain ⟨r, hr, hrs, hre⟩ := ih w1
        refine ⟨Request.getSceneItemList scene.SceneName :: r, ?_, ?_, ?_⟩
        · rw [hr, hw]
          simp
        · rw [hrs, hs]
          rfl
        · simpa [setEnabledRequests] using hre
      · rw [hl] at hw hs
        simp only at hw hs ⊢
        split
        · exact ⟨[Request.getSceneItemList scene.SceneName], hw, hs, rfl⟩
        · obtain ⟨r, hr, hrs, hre⟩ := ih w1
          refine ⟨Request.getSceneItemList scene.SceneName :: r, ?_, ?_, ?_⟩
          · rw [hr, hw]
            simp
          · rw [hrs, hs]
            rfl
          · simpa [setEnabledRequests] using hre

/-- Lines 374-418 send no set-enabled request, and the server state after them is the state
after handling exactly the requests they sent. -/
theorem toggleResolve_sent {σ : Type} (c : Client σ) (sourceName sceneName : String)
    (w : World σ) :
    ∃ rs, (toggleResolve c sourceName sceneName w).2.trace = w.trace ++ rs ∧
      (toggleResolve c sourceName sceneName w).2.srv = c.handleAll rs w.srv ∧
      setEnabledRequests rs = [] := by
  unfold toggleResolve
  by_cases hsn : sceneName = ""
  · simp only [hsn, if_true]
    have hw : (getSceneList c w).2.trace = w.trace ++ [Request.getSceneList] := rfl
    have hs : (getSceneList c w).2.srv = c.handle Request.getSceneList w.srv := rfl
    rcases hl : getSceneList c w with ⟨_ | scenes, w1⟩
    · rw [hl] at hw hs
      exact ⟨[Request.getSceneList], hw, hs, rfl⟩
    · rw [hl] at hw hs
      simp only at hw hs ⊢
      split
      · exact ⟨[Request.getSceneList], hw, hs, rfl⟩
      · obtain ⟨r, hr, hrs, hre⟩ := scanScenes_sent c sourceName scenes w1
        rcases hscan : scanScenes c sourceName scenes w1 with ⟨s1, w2⟩
        rw [hscan] at hr hrs
        simp only at hr hrs ⊢
        have hpre : w2.trace = w.trace ++ (Request.getSceneList :: r) ∧
            w2.srv = c.handleAll (Request.getSceneList :: r) w.srv ∧
            setEnabledRequests (Request.getSceneList :: r) = [] := by
          refine ⟨?_, ?_, ?_⟩
          · rw [hr, hw]
            simp
          · rw [hrs, hs]
            rfl
          · simpa [setEnabledRequests] using hre
        split
        · have hc : (getCurrentProgramScene c w2).2.trace
              = w2.trace ++ [Request.getCurrentProgramScene] := rfl
          have hcs : (getCurrentProgramScene c w2).2.srv
              = c.handle Request.getCurrentProgramScene w2.srv := rfl
          have hfin : ∀ w3 : World σ, w3.trace = w2.trace ++ [Request.getCurrentProgramScene] →
              w3.srv = c.handle Request.getCurrentProgramScene w2.srv →
              ∃ rs, w3.trace = w.trace ++ rs ∧ w3.srv = c.handleAll rs w.srv ∧
                setEnabledRequests rs = [] := by
            intro w3 h3 h3s
            refine ⟨(Request.getSceneList :: r) ++ [Request.getCurrentProgramScene], ?_, ?_, ?_⟩
            · rw [h3, hpre.1]
              simp
            · rw [h3s, hpre.2.1, handleAll_append]
              rfl
            · rw [setEnabledRequests_append, hpre.2.2]
              rfl
          rcases hcur : getCurrentProgramScene c w2 with ⟨_ | cur, w3⟩
          · rw [hcur] at hc hcs
            exact hfin w3 hc hcs
          · rw [hcur] at hc hcs
            simp only at hc hcs ⊢
            split
            · exact hfin w3 hc hcs
            · exact hfin w3 hc hcs
        · exact ⟨Request.getSceneList :: r, hpre⟩
  · simp only [hsn, if_false]
    exact ⟨[], by simp, rfl, rfl⟩

/-- The server state after lines 420-446 is the state after handling the requests they
sent: the item listing, and the set-enabled request when there is one. -/
theorem toggleSceneItem_srv {σ : Type} (c : Client σ) (sourceName sceneName : String)
    (visible : Bool) (w : World σ) :
    (toggleSceneItem c sourceName sceneName visible w).srv =
      c.handleAll (Request.getSceneItemList sceneName ::
        (match (c.GetSceneItemList sceneName w.srv).1 with
          | some sceneItems =>
            if findSceneItemID sceneItems sourceName = 0 then []
            else [Request.setSceneItemEnabled sceneName
                    (findSceneItemID sceneItems sourceName) visible]
          | none => [])) w.srv := by
  unfold toggleSceneItem getSceneItemList
  rcases hl : (c.GetSceneItemList sceneName w.srv).1 with _ | sceneItems
  · simp [Client.handleAll, Client.handle]
  · simp only
    by_cases hf : findSceneItemID sceneItems sourceName = 0
    · simp [hf, Client.handleAll, Client.handle]
    · simp [hf, setSceneItemEnabled, Client.handleAll, Client.handle]

/-- C2: when `toggleMask`, called with a client and a state that are not `nil`, reaches
line 420 with the scene name `scene` (given or resolved), what it sends from there is the
listing of `scene` followed by `sent`: one set-enabled request for `scene`, the located
identifier and the flipped flag when the locator finds the source in that listing, and
nothing otherwise.  The server state at the end is the state after the server has handled
exactly these requests, so the server handles a set-enabled request if and only if the
source is located.  Before line 420 the call sends no set-enabled request and the server
handles none, so `sent` holds the set-enabled requests of the whole call. -/
theorem toggleMask_set_enabled {σ : Type} (client : Client σ) (st : MaskState)
    (sourceName sceneName scene : String) (w w1 : World σ)
    (hres : toggleResolve client sourceName sceneName w = (some scene, w1)) :
    ∃ st1 w2 sent, toggleMask ⟨some client⟩ (some st) sourceName sceneName w
        = Except.ok (some st1, w2) ∧
      sent = (match (client.GetSceneItemList scene w1.srv).1 with
          | some sceneItems =>
            if findSceneItemID sceneItems sourceName = 0 then []
            else [Request.setSceneItemEnabled scene
                    (findSceneItemID sceneItems sourceName) (!st.Active)]
          | none => []) ∧
      w2.trace = w1.trace ++ Request.getSceneItemList scene :: sent ∧
      w2.srv = client.handleAll (Request.getSceneItemList scene :: sent) w1.srv ∧
      setEnabledRequests w2.trace = setEnabledRequests w.trace ++ sent ∧
      ∃ before, w1.trace = w.trace ++ before ∧ w1.srv = client.handleAll before w.srv ∧
        setEnabledRequests before = [] := by
  have hres1 := toggleResolve_setEnabled client sourceName sceneName w
  have hres2 := toggleResolve_sent client sourceName sceneName w
  rw [hres] at hres1 hres2
  simp only at hres1 hres2
  refine ⟨{ st with Active := !st.Active,
                     Scene := if sceneName = "" then scene else st.Scene },
    toggleSceneItem client sourceName scene (!st.Active) w1, _, ?_, rfl, ?_, ?_, ?_, hres2⟩
  · unfold toggleMask
    simp only [hres]
  · exact toggleSceneItem_trace client sourceName scene (!st.Active) w1
  · exact toggleSceneItem_srv client sourceName scene (!st.Active) w1
  · rw [toggleSceneItem_trace, setEnabledRequests_append, hres1]
    congr 1
    rcases (client.GetSceneItemList scene w1.srv).1 with _ | sceneItems
    · simp [setEnabledRequests]
    · by_cases hf : findSceneItemID sceneItems sourceName = 0
      · simp [hf, setEnabledRequests]
      · simp [hf, setEnabledRequests]

/-- The mask of Scenario A toggled in "Main" from `Active = true` on the server that logs
what it receives: it receives the listing of "Main" and one set-enabled request, for "Main",
item `7`, value `false`.  Toggled for the source "Ghost", which no scene has, it receives
the listing only. -/
theorem toggleMask_set_enabled_witness :
    (toggleResolve (loggingClient graphA) "BlurFilter" "Main" ⟨[], []⟩ = (some "Main", ⟨[], []⟩) ∧
      ∃ st1 w2 sent, toggleMask ⟨some (loggingClient graphA)⟩
          (some ⟨"Blur", "BlurFilter", "Main", true⟩) "BlurFilter" "Main" ⟨[], []⟩
          = Except.ok (some st1, w2) ∧
        sent = [Request.setSceneItemEnabled "Main" 7 false] ∧
        w2.trace = [] ++ Request.getSceneItemList "Main" :: sent ∧
        w2.srv = [Request.getSceneItemList "Main", Request.setSceneItemEnabled "Main" 7 false]) ∧
    (toggleResolve (loggingClient graphA) "Ghost" "Main" ⟨[], []⟩ = (some "Main", ⟨[], []⟩) ∧
      ∃ st1 w2 sent, toggleMask ⟨some (loggingClient graphA)⟩
          (some ⟨"Blur", "Ghost", "Main", true⟩) "Ghost" "Main" ⟨[], []⟩
          = Except.ok (some st1, w2) ∧
        sent = [] ∧
        w2.trace = [] ++ Request.getSceneItemList "Main" :: sent ∧
        w2.srv = [Request.getSceneItemList "Main"]) := by
  refine ⟨⟨rfl, ?_⟩, ⟨rfl, ?_⟩⟩
  · obtain ⟨st1, w2, sent, h1, h2, h3, h4, _⟩ :=
      toggleMask_set_enabled (loggingClient graphA) ⟨"Blur", "BlurFilter", "Main", true⟩
        "BlurFilter" "Main" "Main" ⟨[], []⟩ ⟨[], []⟩ rfl
    have hsent : sent = [Request.setSceneItemEnabled "Main" 7 false] := h2.trans (by decide)
    refine ⟨st1, w2, sent, h1, hsent, h3, ?_⟩
    rw [h4, hsent]
    decide
  · obtain ⟨st1, w2, sent, h1, h2, h3, h4, _⟩ :=
      toggleMask_set_enabled (loggingClient graphA) ⟨"Blur", "Ghost", "Main", true⟩
        "Ghost" "Main" "Main" ⟨[], []⟩ ⟨[], []⟩ rfl
    have hsent : sent = [] := h2.trans (by decide)
    refine ⟨st1, w2, sent, h1, hsent, h3, ?_⟩
    rw [h4, hsent]
    decide

/-! ## Startup resolution with an empty hint -/

theorem located_iff (sceneItems : List SceneItem) (sourceName : String)
    (hid : ∀ item ∈ sceneItems, item.SceneItemID ≠ 0) :
    findSceneItemID sceneItems sourceName ≠ 0 ↔
      ∃ item ∈ sceneItems, item.SourceName = sourceName := by
  constructor
  · intro h
    obtain ⟨item, hm, hs, _⟩ := findSceneItemID_mem sceneItems sourceName h
    exact ⟨item, hm, hs⟩
  · exact findSceneItemID_ne_zero sceneItems sourceName hid

theorem firstSceneHaving_eq (g : SceneGraph) (sourceName : String)
    (hid : ∀ n, ∀ item ∈ g.items n, item.SceneItemID ≠ 0) :
    firstSceneHaving g sourceName = firstSceneWith g sourceName := by
  unfold firstSceneHaving firstSceneWith
  congr 1
  funext scene
  congr 1
  rw [Bool.eq_iff_iff]
  have h := located_iff (g.items scene.SceneName) sourceName (hid scene.SceneName)
  simp only [ne_eq] at h
  simp [h]

theorem graphA_ids_ne_zero : ∀ n, ∀ item ∈ graphA.items n, item.SceneItemID ≠ 0 := by
  intro n item hm
  unfold graphA at hm
  simp only at hm
  split at hm
  · revert item
    decide
  · split at hm
    · revert item
      decide
    · cases hm

/-- C4, as the code has it: with an empty hint, on a client that serves a scene graph with a
non-empty scene list, startup resolution gives the active scene when it has a name and the locator finds
the source in its items, whatever the other scenes hold; otherwise the first scene in list
order with a non-empty name in whose items the locator finds the source; otherwise nothing.
When all item identifiers of the graph are nonzero, "the locator finds the source in the
items" is "some item of the scene has the source name". -/
theorem startupResolve_empty_hint {σ : Type} (c : Client σ) (g : SceneGraph)
    (sourceName : String) (w : World σ) (hserves : Serves c g) (hscenes : g.scenes ≠ []) :
    ((startupResolve c sourceName "" w).1 =
      if g.current ≠ "" ∧ findSceneItemID (g.items g.current) sourceName ≠ 0
      then some g.current
      else (firstSceneWith g sourceName).map fun scene => scene.SceneName) ∧
    ((∀ n, ∀ item ∈ g.items n, item.SceneItemID ≠ 0) →
      (startupResolve c sourceName "" w).1 =
        if g.current ≠ "" ∧ ∃ item ∈ g.items g.current, item.SourceName = sourceName
        then some g.current
        else (firstSceneHaving g sourceName).map fun scene => scene.SceneName) := by
  have h1 := startupResolve_serves c g hserves hscenes sourceName w
  refine ⟨h1, fun hid => ?_⟩
  rw [h1, firstSceneHaving_eq g sourceName hid]
  have h := located_iff (g.items g.current) sourceName (hid g.current)
  by_cases hc : g.current ≠ "" ∧ findSceneItemID (g.items g.current) sourceName ≠ 0
  · rw [if_pos hc, if_pos ⟨hc.1, h.mp hc.2⟩]
  · rw [if_neg hc, if_neg (fun hx => hc ⟨hx.1, h.mpr hx.2⟩)]

/-- Scenario A, where every item identifier is nonzero: the active scene "Main" has
"BlurFilter", and so has "Intro", which comes first in the scene list; the result is
"Main". -/
theorem startupResolve_empty_hint_witness :
    Serves (staticClient graphA) graphA ∧ graphA.scenes ≠ [] ∧
    (∀ n, ∀ item ∈ graphA.items n, item.SceneItemID ≠ 0) ∧
    firstSceneHaving graphA "BlurFilter" = some ⟨0, "Intro"⟩ ∧
    (startupResolve (staticClient graphA) "BlurFilter" "" World.start).1 = some "Main" :=
  ⟨serves_staticClient graphA, by decide, graphA_ids_ne_zero, by decide,
    ((startupResolve_empty_hint (staticClient graphA) graphA "BlurFilter" World.start
      (serves_staticClient graphA) (by decide)).2 graphA_ids_ne_zero).trans (by decide)⟩

/-- C4 as stated fails: every query succeeds, the scene list is not empty and the active
scene "Main" has an item for "BlurFilter", with identifier `0`; startup resolution with an
empty hint does not give "Main" but "Intro", the first listed scene whose item for the
source has a nonzero identifier. -/
theorem startupResolve_zero_id_counterexample :
    Serves (staticClient graphZ) graphZ ∧ graphZ.scenes ≠ [] ∧
    (∃ item ∈ graphZ.items graphZ.current, item.SourceName = "BlurFilter") ∧
    (startupResolve (staticClient graphZ) "BlurFilter" "" World.start).1 = some "Intro" ∧
    (startupResolve (staticClient graphZ) "BlurFilter" "" World.start).1
      ≠ some graphZ.current :=
  ⟨serves_staticClient graphZ, by decide, by decide, by decide, by decide⟩

/-! ## The mask-state map built at startup -/

theorem startupResolve_some {σ : Type} (c : Client σ) (sourceName sceneHint scene : String)
    (w w1 : World σ) (h : startupResolve c sourceName sceneHint w = (some scene, w1)) :
    scene ≠ "" ∧ (sceneHint ≠ "" → scene = sceneHint) := by
  by_cases hh : sceneHint = ""
  · subst hh
    refine ⟨?_, fun hx => absurd rfl hx⟩
    unfold startupResolve at h
    simp only [if_true] at h
    rcases hl : getSceneList c w with ⟨_ | scenes, w0⟩
    · rw [hl] at h
      simp at h
    · rw [hl] at h
      simp only at h
      split at h
      · simp at h
      · generalize (if (tryCurrentScene c sourceName w0).1 = "" then
            scanScenes c sourceName scenes (tryCurrentScene c sourceName w0).2
          else ((tryCurrentScene c sourceName w0).1, (tryCurrentScene c sourceName w0).2)) = r
          at h
        by_cases hs2 : r.1 = ""
        · simp [hs2] at h
        · simp only [hs2, if_false, Prod.mk.injEq, Option.some.injEq] at h
          exact h.1 ▸ hs2
  · unfold startupResolve at h
    simp only [hh, if_false] at h
    split at h
    · simp at h
    · simp only [Prod.mk.injEq, Option.some.injEq] at h
      exact ⟨h.1 ▸ hh, fun _ => h.1.symm⟩

theorem processMask_some {σ : Type} (c : Client σ) (mask : MaskConfig) (w w3 : World σ)
    (st : MaskState) (h : processMask c mask w = (some st, w3)) :
    mask.Name ≠ "" ∧ mask.Source ≠ "" ∧ st.Name = mask.Name ∧ st.Source = mask.Source ∧
    st.Scene ≠ "" ∧
    ∃ w1, startupResolve c mask.Source mask.Scene w = (some st.Scene, w1) ∧
      ∃ sceneItems, (c.GetSceneItemList st.Scene w1.srv).1 = some sceneItems ∧
        findSceneItemID sceneItems mask.Source ≠ 0 ∧
        (c.GetSceneItemEnabled st.Scene (findSceneItemID sceneItems mask.Source)
          (c.GetSceneItemList st.Scene w1.srv).2).1 = some st.Active := by
  unfold processMask at h
  by_cases hm : mask.Name = "" ∨ mask.Source = ""
  · simp [hm] at h
  · simp only [hm, if_false] at h
    rcases hres : startupResolve c mask.Source mask.Scene w with ⟨_ | scene, w1⟩
    · simp [hres] at h
    · have hsome := startupResolve_some c mask.Source mask.Scene scene w w1 hres
      have hscene : (if mask.Scene = "" then scene else mask.Scene) = scene := by
        by_cases hh : mask.Scene = ""
        · simp [hh]
        · simp [hh, hsome.2 hh]
      simp only [hres, hscene] at h
      rcases hl : (c.GetSceneItemList scene w1.srv).1 with _ | sceneItems
      · simp [getSceneItemList, hl] at h
      · simp only [getSceneItemList, hl] at h
        by_cases hf : findSceneItemID sceneItems mask.Source = 0
        · simp [hf] at h
        · simp only [hf, if_false] at h
          rcases he : (c.GetSceneItemEnabled scene (findSceneItemID sceneItems mask.Source)
              (c.GetSceneItemList scene w1.srv).2).1 with _ | en
          · simp [getSceneItemEnabled, he] at h
          · simp only [getSceneItemEnabled, he, Prod.mk.injEq, Option.some.injEq] at h
            obtain ⟨hst, _⟩ := h
            subst hst
            simp only [not_or] at hm
            exact ⟨hm.1, hm.2, rfl, rfl, hsome.1, w1, rfl, sceneItems, hl, hf, he⟩

theorem initMaskStates_from {σ : Type} (c : Client σ) (masks : List MaskConfig)
    (m0 : MaskStates) (w : World σ) (name : String) (st : MaskState)
    (h : (initMaskStates c masks m0 w).1 name = some st) :
    m0 name = some st ∨
      ∃ mask ∈ masks, ∃ w0 w3, mask.Name = name ∧ processMask c mask w0 = (some st, w3) := by
  induction masks generalizing m0 w with
  | nil => exact Or.inl h
  | cons mask rest ih =>
    unfold initMaskStates at h
    rcases hp : processMask c mask w with ⟨_ | state, w1⟩
    · simp only [hp] at h
      rcases ih m0 w1 h with h0 | ⟨x, hx, w0, w3, hn, hpx⟩
      · exact Or.inl h0
      · exact Or.inr ⟨x, List.mem_cons_of_mem _ hx, w0, w3, hn, hpx⟩
    · simp only [hp] at h
      rcases ih _ w1 h with h0 | ⟨x, hx, w0, w3, hn, hpx⟩
      · unfold MaskStates.put at h0
        by_cases hk : name = mask.Name
        · simp only [hk, if_true, Option.some.injEq] at h0
          subst h0
          exact Or.inr ⟨mask, List.mem_cons_self _ _, w, w1, hk.symm, hp⟩
        · simp only [hk, if_false] at h0
          exact Or.inl h0
      · exact Or.inr ⟨x, List.mem_cons_of_mem _ hx, w0, w3, hn, hpx⟩

/-- C10: a mask with an empty name or an empty source gets no state; and every entry that
the startup loop leaves in the map, under a key `name`, was stored for a mask of the
configuration with that name, has `Name = name`, non-empty `Name` and `Source`, a non-empty
`Scene` that is the scene startup resolution gave for the mask, and `Active` equal to the
flag the server answered for the item that the locator found for the mask's source in the
listing of that scene. -/
theorem initMaskStates_entries {σ : Type} (c : Client σ) (masks : List MaskConfig)
    (w : World σ) (name : String) (st : MaskState)
    (h : (initMaskStates c masks (fun _ => none) w).1 name = some st) :
    (∀ (mask : MaskConfig) (w0 : World σ), mask.Name = "" ∨ mask.Source = "" →
      processMask c mask w0 = (none, w0)) ∧
    st.Name = name ∧ st.Name ≠ "" ∧ st.Source ≠ "" ∧ st.Scene ≠ "" ∧
    ∃ mask ∈ masks, mask.Name = name ∧ st.Source = mask.Source ∧
      ∃ w0 w1 w3, processMask c mask w0 = (some st, w3) ∧
        startupResolve c mask.Source mask.Scene w0 = (some st.Scene, w1) ∧
        ∃ sceneItems, (c.GetSceneItemList st.Scene w1.srv).1 = some sceneItems ∧
          findSceneItemID sceneItems mask.Source ≠ 0 ∧
          (c.GetSceneItemEnabled st.Scene (findSceneItemID sceneItems mask.Source)
            (c.GetSceneItemList st.Scene w1.srv).2).1 = some st.Active := by
  refine ⟨fun mask w0 hm => by simp [processMask, hm], ?_⟩
  rcases initMaskStates_from c masks _ w name st h with h0 | ⟨mask, hmem, w0, w3, hn, hp⟩
  · cases h0
  · obtain ⟨h1, h2, h3, h4, h5, w1, hres, sceneItems, hl, hf, he⟩ :=
      processMask_some c mask w0 w3 st hp
    exact ⟨h3.trans hn, h3 ▸ h1, h4 ▸ h2, h5, mask, hmem, hn, h4, w0, w1, w3, hp, hres,
      sceneItems, hl, hf, he⟩

/-- Scenario A with the mask "Blur" configured without a scene: the entry under "Blur" has
the scene "Main" and the flag of item `7` of "Main". -/
theorem initMaskStates_entries_witness :
    (initMaskStates (staticClient graphA) [maskBlur] (fun _ => none) World.start).1 "Blur"
      = some ⟨"Blur", "BlurFilter", "Main", true⟩ ∧
    ∃ mask ∈ [maskBlur], mask.Name = "Blur" ∧ "BlurFilter" = mask.Source ∧
      ∃ w0 w1 w3, processMask (staticClient graphA) mask w0
          = (some ⟨"Blur", "BlurFilter", "Main", true⟩, w3) ∧
        startupResolve (staticClient graphA) mask.Source mask.Scene w0 = (some "Main", w1) ∧
        ∃ sceneItems, ((staticClient graphA).GetSceneItemList "Main" w1.srv).1 = some sceneItems ∧
          findSceneItemID sceneItems mask.Source ≠ 0 ∧
          ((staticClient graphA).GetSceneItemEnabled "Main"
            (findSceneItemID sceneItems mask.Source)
            ((staticClient graphA).GetSceneItemList "Main" w1.srv).2).1 = some true :=
  ⟨by decide,
    (initMaskStates_entries (staticClient graphA) [maskBlur] World.start "Blur"
      ⟨"Blur", "BlurFilter", "Main", true⟩ (by decide)).2.2.2.2.2⟩

/-! ## Hotkey events -/

theorem scanScenes_extends {σ : Type} (c : Client σ) (sourceName : String)
    (scenes : List Scene) (w : World σ) :
    ∃ rest, (scanScenes c sourceName scenes w).2.trace = w.trace ++ rest := by
  induction scenes generalizing w with
  | nil => exact ⟨[], by simp [scanScenes]⟩
  | cons scene rest ih =>
    unfold scanScenes
    by_cases hn : scene.SceneName = ""
    · simp only [hn, if_true]
      exact ih w
    · simp only [hn, if_false]
      have hw : (getSceneItemList c scene.SceneName w).2.trace
          = w.trace ++ [Request.getSceneItemList scene.SceneName] := rfl
      rcases hl : getSceneItemList c scene.SceneName w with ⟨_ | sceneItems, w1⟩
      · rw [hl] at hw
        simp only at hw ⊢
        obtain ⟨r, hr⟩ := ih w1
        exact ⟨Request.getSceneItemList scene.SceneName :: r, by rw [hr, hw]; simp⟩
      · rw [hl] at hw
        simp only at hw ⊢
        split
        · exact ⟨_, hw⟩
        · obtain ⟨r, hr⟩ := ih w1
          exact ⟨Request.getSceneItemList scene.SceneName :: r, by rw [hr, hw]; simp⟩

theorem toggleResolve_empty_trace {σ : Type} (c : Client σ) (sourceName : String)
    (w : World σ) :
    ∃ rest, (toggleResolve c sourceName "" w).2.trace
      = w.trace ++ Request.getSceneList :: rest := by
  unfold toggleResolve
  simp only [if_true]
  have hw : (getSceneList c w).2.trace = w.trace ++ [Request.getSceneList] := rfl
  rcases hl : getSceneList c w with ⟨_ | scenes, w1⟩
  · rw [hl] at hw
    exact ⟨[], hw⟩
  · rw [hl] at hw
    simp only at hw ⊢
    split
    · exact ⟨[], hw⟩
    · obtain ⟨r, hr⟩ := scanScenes_extends c sourceName scenes w1
      rcases hscan : scanScenes c sourceName scenes w1 with ⟨s1, w2⟩
      rw [hscan] at hr
      simp only at hr ⊢
      split
      · have hc : (getCurrentProgramScene c w2).2.trace
            = w2.trace ++ [Request.getCurrentProgramScene] := rfl
        rcases hcur : getCurrentProgramScene c w2 with ⟨_ | cur, w3⟩
        · rw [hcur] at hc
          simp only at hc ⊢
          exact ⟨r ++ [Request.getCurrentProgramScene], by rw [hc, hr, hw]; simp⟩
        · rw [hcur] at hc
          simp only at hc ⊢
          split <;>
            exact ⟨r ++ [Request.getCurrentProgramScene], by simp only; rw [hc, hr, hw]; simp⟩
      · exact ⟨r, by simp only; rw [hr, hw]; simp⟩

theorem toggleSceneItem_sceneQueries {σ : Type} (c : Client σ) (sourceName sceneName : String)
    (visible : Bool) (w : World σ) :
    sceneQueries (toggleSceneItem c sourceName sceneName visible w).trace
      = sceneQueries w.trace := by
  rw [toggleSceneItem_trace, sceneQueries_append]
  rcases (c.GetSceneItemList sceneName w.srv).1 with _ | sceneItems
  · simp [sceneQueries]
  · by_cases hf : findSceneItemID sceneItems sourceName = 0
    · simp [hf, sceneQueries]
    · simp [hf, sceneQueries]

/-- C7, as the code has it: a key-down event for a mask that has a state calls `toggleMask`
with the configured scene of the mask, not with the `Scene` of the state.  When the
configured scene is non-empty the toggle sends no scene-list or active-scene query, keeps
the state's `Scene` and works on the configured scene; when it is empty the toggle starts
with a scene-list query whatever the state's `Scene` is, and when that resolution gives a
scene it works on that scene and stores it as the state's `Scene`. -/
theorem hotkeyTriggered_resolution {σ : Type} (client : Client σ) (mask : MaskConfig)
    (maskStates : MaskStates) (st : MaskState) (w : World σ)
    (hst : maskStates mask.Name = some st) :
    ∃ st1 w2, hotkeyTriggered ⟨some client⟩ mask maskStates w
        = Except.ok (maskStates.put mask.Name st1, w2) ∧
      (mask.Scene ≠ "" →
        st1.Scene = st.Scene ∧ sceneQueries w2.trace = sceneQueries w.trace ∧
        w2.trace = w.trace ++ Request.getSceneItemList mask.Scene ::
          (match (client.GetSceneItemList mask.Scene w.srv).1 with
            | some sceneItems =>
              if findSceneItemID sceneItems mask.Source = 0 then []
              else [Request.setSceneItemEnabled mask.Scene
                      (findSceneItemID sceneItems mask.Source) (!st.Active)]
            | none => [])) ∧
      (mask.Scene = "" →
        (∃ rest, w2.trace = w.trace ++ Request.getSceneList :: rest) ∧
        ∀ scene w1, toggleResolve client mask.Source "" w = (some scene, w1) →
          st1.Scene = scene ∧
          w2.trace = w1.trace ++ Request.getSceneItemList scene ::
            (match (client.GetSceneItemList scene w1.srv).1 with
              | some sceneItems =>
                if findSceneItemID sceneItems mask.Source = 0 then []
                else [Request.setSceneItemEnabled scene
                        (findSceneItemID sceneItems mask.Source) (!st.Active)]
              | none => [])) := by
  rcases hres : toggleResolve client mask.Source mask.Scene w with ⟨_ | scene, w1⟩
  · refine ⟨{ st with Active := !st.Active }, w1, ?_, ?_, ?_⟩
    · simp only [hotkeyTriggered, toggleMask, hst, hres]
    · intro hne
      simp [toggleResolve, hne] at hres
    · intro he
      rw [he] at hres
      obtain ⟨r, hr⟩ := toggleResolve_empty_trace client mask.Source w
      rw [hres] at hr
      refine ⟨⟨r, hr⟩, fun scene w1x hx => ?_⟩
      rw [hres] at hx
      simp at hx
  · refine ⟨{ st with Active := !st.Active,
                       Scene := if mask.Scene = "" then scene else st.Scene },
      toggleSceneItem client mask.Source scene (!st.Active) w1, ?_, ?_, ?_⟩
    · simp only [hotkeyTriggered, toggleMask, hst, hres]
    · intro hne
      simp only [toggleResolve, hne, if_false, Prod.mk.injEq, Option.some.injEq] at hres
      obtain ⟨hs, hw⟩ := hres
      subst hs
      subst hw
      exact ⟨by simp [hne], toggleSceneItem_sceneQueries _ _ _ _ _,
        toggleSceneItem_trace _ _ _ _ _⟩
    · intro he
      rw [he] at hres
      obtain ⟨r, hr⟩ := toggleResolve_empty_trace client mask.Source w
      rw [hres] at hr
      simp only at hr
      refine ⟨⟨r ++ Request.getSceneItemList scene ::
          (match (client.GetSceneItemList scene w1.srv).1 with
            | some sceneItems =>
              if findSceneItemID sceneItems mask.Source = 0 then []
              else [Request.setSceneItemEnabled scene
                      (findSceneItemID sceneItems mask.Source) (!st.Active)]
            | none => []), ?_⟩, fun scene1 w1x hx => ?_⟩
      · rw [toggleSceneItem_trace, hr]
        simp
      · rw [hres] at hx
        simp only [Prod.mk.injEq, Option.some.injEq] at hx
        obtain ⟨hs, hw⟩ := hx
        subst hs
        subst hw
        exact ⟨by simp [he], toggleSceneItem_trace _ _ _ _ _⟩

/-- The mask "Blur" of Scenario A, configured without a scene, with the state that startup
stored for it (`Scene = "Main"`): the key-down event starts with a scene-list query. -/
theorem hotkeyTriggered_resolution_witness :
    (initMaskStates (staticClient graphA) [maskBlur] (fun _ => none) World.start).1
        maskBlur.Name = some ⟨"Blur", "BlurFilter", "Main", true⟩ ∧
    ∃ st1 w2, hotkeyTriggered ⟨some (staticClient graphA)⟩ maskBlur
        (initMaskStates (staticClient graphA) [maskBlur] (fun _ => none) World.start).1
        World.start
        = Except.ok (MaskStates.put
            (initMaskStates (staticClient graphA) [maskBlur] (fun _ => none) World.start).1
            maskBlur.Name st1, w2) ∧
      ∃ rest, w2.trace = World.start.trace ++ Request.getSceneList :: rest :=
  ⟨by decide,
    (hotkeyTriggered_resolution (staticClient graphA) maskBlur
      (initMaskStates (staticClient graphA) [maskBlur] (fun _ => none) World.start).1
      ⟨"Blur", "BlurFilter", "Main", true⟩ World.start (by decide)).imp
      fun _ h1 => h1.imp fun _ h2 => ⟨h2.1, (h2.2.2 rfl).1⟩⟩

/-- C7 as stated fails: in Scenario A the mask "Blur", configured without a scene, is stored
at startup with `Scene = "Main"` and passes the registration guard; its key-down event
nevertheless sends a scene-list query, and the set-enabled request goes to "Intro", not to
the stored scene "Main". -/
theorem hotkeyTriggered_reresolves_counterexample :
    (initMaskStates (staticClient graphA) [maskBlur] (fun _ => none) World.start).1 "Blur"
      = some ⟨"Blur", "BlurFilter", "Main", true⟩ ∧
    hotkeyEligible
      (initMaskStates (staticClient graphA) [maskBlur] (fun _ => none) World.start).1
      maskBlur = true ∧
    ∃ m w, hotkeyTriggered ⟨some (staticClient graphA)⟩ maskBlur
        (initMaskStates (staticClient graphA) [maskBlur] (fun _ => none) World.start).1
        World.start = Except.ok (m, w) ∧
      w.trace = [Request.getSceneList, Request.getSceneItemList "Intro",
        Request.getSceneItemList "Intro", Request.setSceneItemEnabled "Intro" 2 false] ∧
      sceneQueries w.trace = [Request.getSceneList] ∧
      m "Blur" = some ⟨"Blur", "BlurFilter", "Intro", false⟩ :=
  ⟨by decide, by decide, _, _, rfl, by decide, by decide, by decide⟩

/-! ## Resolution inside the toggle against startup resolution -/

/-- C8 at Scenario A, where every query succeeds and both "Intro" (first in the scene list)
and the active scene "Main" have "BlurFilter": startup resolution with an empty hint gives
"Main", and `toggleMask` with an empty scene resolves to "Intro" without an active-scene
query and sends its set-enabled request to "Intro". -/
theorem toggleResolve_scan_before_active :
    (startupResolve (staticClient graphA) "BlurFilter" "" World.start).1 = some "Main" ∧
    (toggleResolve (staticClient graphA) "BlurFilter" "" World.start).1 = some "Intro" ∧
    (toggleResolve (staticClient graphA) "BlurFilter" "" World.start).2.trace
      = [Request.getSceneList, Request.getSceneItemList "Intro"] ∧
    ∃ st1 w, toggleMask ⟨some (staticClient graphA)⟩
        (some ⟨"Blur", "BlurFilter", "Main", true⟩) "BlurFilter" "" World.start
        = Except.ok (some st1, w) ∧
      st1.Scene = "Intro" ∧
      setEnabledRequests w.trace = [Request.setSceneItemEnabled "Intro" 2 false] :=
  ⟨by decide, by decide, by decide, _, _, rfl, by decide, by decide⟩

end OBSHotkey
